import Mathlib

/-!
Shallow embedding of the request-gating pipeline of the `gcb` service
(Go, `net/http` middleware): client-identity resolution, API-key gate with
stealth denial, IP allowlist (exact and CIDR), CORS enforcement with
preflight handling, metrics instrumentation, route registration, and the
image-type validation shared by the upload and signed-URL handlers.

String processing is carried out on `List Char` with structural-recursive
helpers mirroring the Go standard-library functions the service calls
(`strings.Split`, `strings.TrimSpace`, `strings.ToLower`,
`strings.HasSuffix`, `strings.Contains`, `net.SplitHostPort`,
`net.ParseIP`, `net.ParseCIDR`), so every definition evaluates by kernel
reduction.
-/

namespace GCB

/-- Go `strings.Split` for a one-character separator: the runs of `l`
between occurrences of `c`.  `splitOnChar c [] = [[]]`, matching Go's
`Split("", sep) = [""]`. -/
def splitOnChar (c : Char) : List Char → List (List Char)
  | [] => [[]]
  | x :: xs =>
    if x = c then [] :: splitOnChar c xs
    else
      match splitOnChar c xs with
      | [] => [[x]]
      | g :: gs => (x :: g) :: gs

/-- The six ASCII space characters Go's `strings.TrimSpace` fast path
trims: `'\t'`, `'\n'`, `'\v'`, `'\f'`, `'\r'`, `' '`. -/
def isSpaceChar (c : Char) : Bool :=
  c == ' ' || c == '\t' || c == '\n' || c == '\x0b' || c == '\x0c' || c == '\r'

/-- Go `strings.TrimSpace` on a character list. -/
def trimSpaceList (l : List Char) : List Char :=
  ((l.dropWhile isSpaceChar).reverse.dropWhile isSpaceChar).reverse

/-- Go `strings.HasSuffix` on character lists. -/
def listEndsWith (l suf : List Char) : Bool :=
  decide (suf.length ≤ l.length) && (l.drop (l.length - suf.length) == suf)

/-- An inbound HTTP request, as the middleware sees it: method, URL path,
`Host`, the request headers (canonical-cased names, first value wins, as
`http.Header.Get` returns), and the transport peer address `RemoteAddr`. -/
structure Request where
  method : String
  path : String
  host : String
  headers : List (String × String)
  remoteAddr : String

/-- `r.Header.Get key`: the first value stored under `key`, `""` if absent. -/
def headerGet (headers : List (String × String)) (key : String) : String :=
  match headers.find? (fun kv => kv.fst == key) with
  | some kv => kv.snd
  | none => ""

/-- Index of the last occurrence of `c` in `l` (Go `last(hostport, ':')`). -/
def lastIdxOf (c : Char) (l : List Char) : Option Nat :=
  match l.reverse.findIdx? (fun x => x == c) with
  | none => none
  | some j => some (l.length - 1 - j)

/-- Go `net.SplitHostPort`, restricted to the host component: returns
`some host` on success and `none` on any of the error paths (missing port,
too many colons, bracket errors).  Faithful to the stdlib algorithm: the
port separator is the last `':'`; a leading `'['` selects the bracketed
(IPv6) form `[host]:port`; stray `'['`/`']'` or a `':'` inside an
unbracketed host are errors. -/
def splitHostPort (hostport : String) : Option String :=
  let s := hostport.data
  match lastIdxOf ':' s with
  | none => none
  | some i =>
    match s with
    | '[' :: _ =>
      match s.findIdx? (fun x => x == ']') with
      | none => none
      | some e =>
        if e + 1 = s.length then none
        else if e + 1 = i then
          if ((s.drop 1).contains '[') then none
          else if ((s.drop (e + 1)).contains ']') then none
          else some (String.mk ((s.drop 1).take (e - 1)))
        else none
    | _ =>
      let host := s.take i
      if host.contains ':' then none
      else if s.contains '[' then none
      else if s.contains ']' then none
      else some (String.mk host)

/-- `getClientIP`: resolve the client identity from a request.
Priority (first non-empty wins): `CF-Connecting-IP`, `X-Real-IP`, the first
comma-separated entry of `X-Forwarded-For` trimmed of whitespace, then
`RemoteAddr` with the port stripped (raw `RemoteAddr` if stripping fails). -/
def getClientIP (r : Request) : String :=
  let cfIP := headerGet r.headers "CF-Connecting-IP"
  if cfIP ≠ "" then cfIP
  else
    let realIP := headerGet r.headers "X-Real-IP"
    if realIP ≠ "" then realIP
    else
      let forwarded := headerGet r.headers "X-Forwarded-For"
      if forwarded ≠ "" then
        String.mk (trimSpaceList ((splitOnChar ',' forwarded.data).headD []))
      else
        match splitHostPort r.remoteAddr with
        | some host => host
        | none => r.remoteAddr

/-- Decimal value of a digit list (most significant first), as Go's `dtoi`
accumulates it. -/
def digitsVal (s : List Char) : Nat :=
  s.foldl (fun n c => n * 10 + (c.toNat - 48)) 0

/-- One dotted-quad field as Go's IPv4 parser accepts it: one or more
digits, no leading zero unless the field is exactly `"0"`, value at most
255. -/
def parseIPv4Field (s : List Char) : Option Nat :=
  if s.length = 0 then none
  else if ¬ s.all Char.isDigit then none
  else if s.length > 1 ∧ s.headD ' ' = '0' then none
  else if digitsVal s ≤ 255 then some (digitsVal s) else none

/-- The IPv4 branch of Go's `netip.ParseAddr` (`parseIPv4`): exactly four
`.`-separated fields, each per `parseIPv4Field`, yielding the four address
bytes. -/
def parseIPv4 (s : List Char) : Option (List Nat) :=
  match splitOnChar '.' s with
  | [a, b, c, d] =>
    match parseIPv4Field a, parseIPv4Field b, parseIPv4Field c, parseIPv4Field d with
    | some va, some vb, some vc, some vd => some [va, vb, vc, vd]
    | _, _, _, _ => none
  | _ => none

/-- The value of a hexadecimal digit, `none` for any other character. -/
def hexDigitVal (c : Char) : Option Nat :=
  if '0' ≤ c ∧ c ≤ '9' then some (c.toNat - 48)
  else if 'a' ≤ c ∧ c ≤ 'f' then some (c.toNat - 87)
  else if 'A' ≤ c ∧ c ≤ 'F' then some (c.toNat - 55)
  else none

/-- One colon-separated field of an IPv6 address, as Go's `parseIPv6`
accumulates it: consume hex digits into `acc`, stopping at the first
non-hex character; fail as soon as the accumulator exceeds `0xFFFF`.
Returns the field value and the unconsumed remainder. -/
def parseHexGroup : List Char → Nat → Option (Nat × List Char)
  | [], acc => some (acc, [])
  | c :: rest, acc =>
    match hexDigitVal c with
    | none => some (acc, c :: rest)
    | some v =>
      if acc * 16 + v > 65535 then none
      else parseHexGroup rest (acc * 16 + v)

/-- The post-loop phase of Go's `parseIPv6`: with `ip` the bytes parsed so
far and `ellipsis` the byte position of a `::` (if one was seen), fail when
the address is too short and no `::` can pad it, or when all 16 bytes were
parsed and a `::` would expand to zero fields; otherwise insert the zero
bytes the `::` stands for. -/
def finishIPv6 (ip : List Nat) (ellipsis : Option Nat) : Option (List Nat) :=
  if ip.length < 16 then
    match ellipsis with
    | none => none
    | some e => some (ip.take e ++ List.replicate (16 - ip.length) 0 ++ ip.drop e)
  else
    match ellipsis with
    | some _ => none
    | none => if ip.length = 16 then some ip else none

/-- The field loop of Go's `parseIPv6`, entered with fewer than 16 bytes
parsed: read a hex field (at least one digit); a following `.` switches to
an embedded IPv4 tail (allowed only as the final 4 bytes, and only at byte
12 unless a `::` was seen); otherwise store the two field bytes and
continue past a `:` (recording a `::` at most once, allowed at the end).
Anything left over once 16 bytes are parsed is trailing garbage.  Each
iteration stores at least two bytes, so at most 8 iterations run; the fuel
argument starts at 9 and never reaches 0. -/
def parseIPv6Loop : Nat → List Char → List Nat → Option Nat → Option (List Nat)
  | 0, _, _, _ => none
  | _ + 1, [], _, _ => none
  | fuel + 1, c :: s, ip, ellipsis =>
    if (hexDigitVal c).isNone then none
    else
      match parseHexGroup (c :: s) 0 with
      | none => none
      | some (acc, rest) =>
        match rest with
        | '.' :: _ =>
          if ellipsis.isNone ∧ ip.length ≠ 12 then none
          else if ip.length + 4 > 16 then none
          else
            match parseIPv4 (c :: s) with
            | none => none
            | some bs4 => finishIPv6 (ip ++ bs4) ellipsis
        | [] => finishIPv6 (ip ++ [acc / 256, acc % 256]) ellipsis
        | ':' :: rest2 =>
          let ip2 := ip ++ [acc / 256, acc % 256]
          match rest2 with
          | [] => none
          | ':' :: rest3 =>
            if ellipsis.isSome then none
            else
              match rest3 with
              | [] => finishIPv6 ip2 (some ip2.length)
              | _ =>
                if ip2.length < 16 then parseIPv6Loop fuel rest3 ip2 (some ip2.length)
                else none
          | _ =>
            if ip2.length < 16 then parseIPv6Loop fuel rest2 ip2 ellipsis
            else none
        | _ => none

/-- The IPv6 branch of Go's `netip.ParseAddr` (`parseIPv6`), as
`net.ParseIP` and `net.ParseCIDR` consume it: any `%` makes the result
unusable (an empty zone is a parse error, a non-empty zone is rejected by
both callers), a leading `::` may stand alone or start the field loop. -/
def parseIPv6 (s : List Char) : Option (List Nat) :=
  if s.contains '%' then none
  else
    match s with
    | ':' :: ':' :: rest =>
      match rest with
      | [] => some (List.replicate 16 0)
      | _ => parseIPv6Loop 9 rest [] (some 0)
    | _ => parseIPv6Loop 9 s [] none

/-- A parsed `netip.Addr` as Go distinguishes them: an address parsed from
dotted-quad form (4 bytes, `BitLen` 32) or from IPv6 form (16 bytes,
`BitLen` 128). -/
inductive GoAddr where
  | v4 (bytes : List Nat)
  | v6 (bytes : List Nat)
deriving DecidableEq

/-- Go `netip.ParseAddr` with the zone rejection both `net.ParseIP` and
`net.ParseCIDR` apply: the first `.`, `:` or `%` decides the form — `.`
selects the IPv4 parser, `:` the IPv6 parser, `%` (an address-less zone)
and the absence of all three are errors. -/
def parseAddr (s : String) : Option GoAddr :=
  match s.data.find? (fun c => c == '.' || c == ':' || c == '%') with
  | some '.' => (parseIPv4 s.data).map GoAddr.v4
  | some ':' => (parseIPv6 s.data).map GoAddr.v6
  | _ => none

/-- The 12-byte prefix `net` uses for IPv4-mapped IPv6 addresses
(`v4InV6Prefix`). -/
def v4InV6Prefix : List Nat :=
  [0, 0, 0, 0, 0, 0, 0, 0, 0, 0, 255, 255]

/-- `netip.Addr.As16`: a dotted-quad address becomes its IPv4-mapped
16-byte form, an IPv6 address is already 16 bytes. -/
def as16 : GoAddr → List Nat
  | .v4 bs => v4InV6Prefix ++ bs
  | .v6 bs => bs

/-- `netip.Addr.BitLen`: 32 for a dotted-quad address, 128 for IPv6. -/
def bitLen : GoAddr → Nat
  | .v4 _ => 32
  | .v6 _ => 128

/-- Go `net.ParseIP`: `netip.ParseAddr` (zones rejected) followed by
`As16`, giving the 16-byte `net.IP` slice. -/
def parseIP (s : String) : Option (List Nat) :=
  (parseAddr s).map as16

/-- `(net.IP).To4`: a 4-byte address is itself; a 16-byte IPv4-mapped
address is its last 4 bytes; anything else has no 4-byte form. -/
def ipTo4 (ip : List Nat) : Option (List Nat) :=
  if ip.length = 4 then some ip
  else if ip.length = 16 ∧ ip.take 12 = v4InV6Prefix then some (ip.drop 12)
  else none

/-- Byte `i` of `net.CIDRMask`: `k` leading one bits (`k` between 0 and
8). -/
def maskByte (k : Nat) : Nat :=
  256 - 2 ^ (8 - k)

/-- `net.CIDRMask ones (8 * nbytes)`: `nbytes` mask bytes with `ones`
leading one bits in total. -/
def cidrMask (ones nbytes : Nat) : List Nat :=
  (List.range nbytes).map (fun i => maskByte (min 8 (ones - 8 * i)))

/-- `(net.IP).Mask` for the shapes `ParseCIDR` produces (a 16-byte `As16`
address and a 4- or 16-byte mask): a 4-byte mask applies to the last 4
bytes of an IPv4-mapped address, a 16-byte mask applies bytewise; a length
mismatch yields no network. -/
def ipMask (ip16 : List Nat) (mask : List Nat) : Option (List Nat) :=
  if mask.length = 4 then
    if ip16.take 12 = v4InV6Prefix then
      some (List.zipWith Nat.land (ip16.drop 12) mask)
    else none
  else if mask.length = 16 then some (List.zipWith Nat.land ip16 mask)
  else none

/-- The mask-length digits of a CIDR entry, as Go's `dtoi` accepts them in
`net.ParseCIDR`: a non-empty run of decimal digits (leading zeros
allowed). -/
def parseMaskLen (s : List Char) : Option Nat :=
  if s.length = 0 then none
  else if ¬ s.all Char.isDigit then none
  else some (digitsVal s)

/-- Go `net.ParseCIDR`: split at the first `/`, parse the part before it
with `netip.ParseAddr` (zones rejected) and the rest as a mask length of
at most the address's `BitLen`.  Returns the `IPNet`'s masked network
address and mask, `none` on any parse error. -/
def parseCIDR (s : String) : Option (List Nat × List Nat) :=
  match splitOnChar '/' s.data with
  | [] => none
  | [_] => none
  | a :: rest =>
    match parseAddr (String.mk a), parseMaskLen (List.intercalate ['/'] rest) with
    | some addr, some n =>
      if n ≤ bitLen addr then
        match ipMask (as16 addr) (cidrMask n (bitLen addr / 8)) with
        | some network => some (network, cidrMask n (bitLen addr / 8))
        | none => none
      else none
    | _, _ => none

/-- Go's `networkNumberAndMask`: reduce an IPv4(-mapped) network to its
4-byte form (dropping the first 12 mask bytes of a 16-byte mask to match);
a 16-byte network keeps a 16-byte mask and cannot have a 4-byte one. -/
def networkNumberAndMask (netIP m : List Nat) : Option (List Nat × List Nat) :=
  match ipTo4 netIP with
  | some ip4 =>
    if m.length = 4 then some (ip4, m)
    else if m.length = 16 then some (ip4, m.drop 12)
    else none
  | none =>
    if netIP.length = 16 then
      if m.length = 16 then some (netIP, m) else none
    else none

/-- `(*net.IPNet).Contains`: normalise the network and the client address
to their 4-byte forms where possible; the client belongs to the network
when the lengths agree and every byte matches under the mask. -/
def ipNetContains (netIP m clientIP : List Nat) : Bool :=
  match networkNumberAndMask netIP m with
  | none => false
  | some nets =>
    let ip := (ipTo4 clientIP).getD clientIP
    decide (ip.length = nets.fst.length) &&
      (List.zipWith Nat.land nets.fst nets.snd ==
       List.zipWith Nat.land ip nets.snd)

/-- One iteration of the allowlist loop in `isIPAllowed`: an entry holding
a `/` is treated as a CIDR block (skipped when it fails to parse), any
other entry is compared for exact string equality with the client IP. -/
def ipMatchesEntry (clientIP : String) (parsed : List Nat) (entry : String) : Bool :=
  if entry.data.contains '/' then
    match parseCIDR entry with
    | none => false
    | some nets => ipNetContains nets.fst nets.snd parsed
  else clientIP == entry

/-- `isIPAllowed`: deny when the client string does not parse as an IP,
otherwise allow exactly when some allowlist entry matches. -/
def isIPAllowed (clientIP : String) (allowedIPs : List String) : Bool :=
  match parseIP clientIP with
  | none => false
  | some parsed => allowedIPs.any (ipMatchesEntry clientIP parsed)

/-- What a middleware layer does with a request: close the raw connection
without writing any HTTP bytes (`closed`), write a status line with a body
of its own (`response`), or delegate to the next handler in the chain
(`forwarded`, carrying that handler's result). -/
inductive GateResult (α : Type) where
  | closed : GateResult α
  | response (status : Nat) (body : String) : GateResult α
  | forwarded (a : α) : GateResult α
deriving DecidableEq

/-- `AuthMiddleware apiKey allowedIPs`: validate the `X-API-Key` header and
(when an allowlist is configured) the resolved client IP, before letting
the request through to `next`.  On either denial: if the response writer
exposes a working hijack capability (the `http.Hijacker` type assertion
succeeds and `Hijack()` returns no error, folded into the single
`hijackable` flag), close the connection; otherwise write a bare 404 with
no body. -/
def AuthMiddleware (apiKey : String) (allowedIPs : List String) (hijackable : Bool)
    (next : Request → α) (r : Request) : GateResult α :=
  let providedKey := headerGet r.headers "X-API-Key"
  if providedKey = "" ∨ providedKey ≠ apiKey then
    if hijackable then .closed else .response 404 ""
  else if allowedIPs.length > 0 ∧ isIPAllowed (getClientIP r) allowedIPs = false then
    if hijackable then .closed else .response 404 ""
  else .forwarded (next r)

/-- `isOriginAllowed`: wildcard policy (no configured origins, or exactly
`["*"]`) allows everything; otherwise the origin must equal one of the
configured entries. -/
def isOriginAllowed (origin : String) (allowedOrigins : List String) : Bool :=
  if allowedOrigins.length = 0 ∨ (allowedOrigins.length = 1 ∧ allowedOrigins.headD "" = "*") then
    true
  else allowedOrigins.any (fun allowed => origin == allowed)

/-- Output of the CORS layer: the response headers it set (in order) and
what it then did with the request. -/
structure CorsOutput (α : Type) where
  headers : List (String × String)
  result : GateResult α
deriving DecidableEq

/-- `CORSMiddleware`: reflect an allowed `Origin` back as
`Access-Control-Allow-Origin` (omit the header otherwise), always set the
fixed allow-methods / allow-headers / max-age headers, answer `OPTIONS`
preflights immediately with 204 and an empty body, and forward every other
request to `next`. -/
def CORSMiddleware (allowedOrigins : List String) (next : Request → α)
    (r : Request) : CorsOutput α :=
  let origin := headerGet r.headers "Origin"
  let corsHeaders :=
    (if isOriginAllowed origin allowedOrigins then
      [("Access-Control-Allow-Origin", origin)]
     else []) ++
    [("Access-Control-Allow-Methods", "POST, GET, OPTIONS"),
     ("Access-Control-Allow-Headers", "Content-Type, X-API-Key"),
     ("Access-Control-Max-Age", "3600")]
  if r.method = "OPTIONS" then ⟨corsHeaders, .response 204 ""⟩
  else ⟨corsHeaders, .forwarded (next r)⟩

/-- `newResponseWriter` initialises the wrapper's `statusCode` field to
`http.StatusOK`. -/
def newResponseWriter : Nat := 200

/-- The wrapper's `WriteHeader`: store `code` in the `statusCode` field
(overwriting whatever was there) and forward to the wrapped writer. -/
def writeHeader (_statusCode : Nat) (code : Nat) : Nat :=
  code

/-- The `statusCode` the wrapper holds after the downstream layer performed
the given sequence of `WriteHeader` calls. -/
def recordedStatus (codes : List Nat) : Nat :=
  codes.foldl writeHeader newResponseWriter

/-- Label tuple of the `http_requests_total` counter vector. -/
structure Labels where
  method : String
  endpoint : String
  statusCode : String
  hostname : String
  clientIP : String
deriving DecidableEq

/-- The process-wide metrics state the middleware mutates: the request
counter vector and the observation count of the latency histogram vector
(keyed by method and path). -/
structure MetricsState where
  httpRequestsTotal : Labels → Nat
  httpRequestDurationCount : String × String → Nat

/-- The zero metrics state at process start. -/
def initialMetrics : MetricsState :=
  ⟨fun _ => 0, fun _ => 0⟩

/-- `MetricsMiddleware`: skip requests to `/metrics` entirely (the
downstream handler still runs, nothing is recorded); for every other
request, observe the latency histogram at `(method, path)`, run the
downstream layer against the status-capturing wrapper (`next r` is the
sequence of `WriteHeader` calls it performs), and increment the request
counter at `(method, path, Itoa status, host, client IP)`. -/
def MetricsMiddleware (next : Request → List Nat) (r : Request)
    (st : MetricsState) : MetricsState :=
  if r.path = "/metrics" then st
  else
    let hostname := r.host
    let clientIP := getClientIP r
    let status := recordedStatus (next r)
    let key : Labels := ⟨r.method, r.path, toString status, hostname, clientIP⟩
    { httpRequestsTotal := fun l =>
      if l = key then st.httpRequestsTotal l + 1 else st.httpRequestsTotal l,
      httpRequestDurationCount := fun k =>
      if k = (r.method, r.path) then st.httpRequestDurationCount k + 1
      else st.httpRequestDurationCount k }

/-- The same request served `n` times in a row, starting from the zero
metrics state. -/
def iterateMW (next : Request → List Nat) (r : Request) : Nat → MetricsState
  | 0 => initialMetrics
  | n + 1 => MetricsMiddleware next r (iterateMW next r n)

/-- A route registered on the `http.ServeMux`: its path, whether its
handler is wrapped in `AuthMiddleware`, and which handler serves it. -/
structure Route where
  path : String
  authProtected : Bool
  handler : String
deriving DecidableEq

/-- The routes `main` registers on the mux, as a function of the configured
API key.  With a non-empty key, the four protected routes are wrapped in
`AuthMiddleware`; with an empty key, only `/upload` is registered, with no
auth wrapper.  `/health` and `/metrics` are always registered, unwrapped. -/
def registeredRoutes (apiKey : String) : List Route :=
  [⟨"/health", false, "HandleHealth"⟩,
   ⟨"/metrics", false, "promhttp.Handler"⟩] ++
  (if apiKey ≠ "" then
    [⟨"/upload", true, "HandleUpload(prod)"⟩,
     ⟨"/signedurl", true, "HandleGenerateSignedUrl(prod)"⟩,
     ⟨"/upload-dev", true, "HandleUpload(dev)"⟩,
     ⟨"/signedurl-dev", true, "HandleGenerateSignedUrl(dev)"⟩]
   else
    [⟨"/upload", false, "HandleUpload(prod)"⟩])

/-- The extensions `isValidImageType` accepts. -/
def validExtensions : List String :=
  [".jpg", ".jpeg", ".png", ".gif", ".webp", ".bmp", ".svg"]

/-- `isValidImageType`: the lowercased filename must end in one of the
seven image extensions. -/
def isValidImageType (filename : String) : Bool :=
  let lowered := filename.data.map Char.toLower
  validExtensions.any (fun ext => listEndsWith lowered ext.data)

/-- What one call to a protected handler produced: the status code it
wrote, the `success`, `message` and `error` fields of the JSON body it
encoded (`""` for an omitted field; the dynamic parts of the Go error
strings are abbreviated to fixed placeholders), and whether it invoked the
storage collaborator (`UploadImage` respectively
`GenerateV4PutObjectSignedURL`). -/
structure HandlerResult where
  status : Nat
  success : Bool
  message : String
  error : String
  storageCalled : Bool
deriving DecidableEq

/-- The aspects of a request `HandleUpload` branches on: the method,
whether `ParseMultipartForm` succeeded, whether the `image` form file was
present, the size reported by the multipart header, and the uploaded
filename. -/
structure UploadRequest where
  method : String
  parseFormOk : Bool
  fileProvided : Bool
  fileSize : Int
  filename : String

/-- `HandleUpload`: reject non-POST methods, unparseable forms, a missing
`image` field, oversized files and invalid image types, in that order, each
without touching storage; otherwise call `UploadImage` and report its
outcome (`storageOk` abstracts whether that call succeeds). -/
def HandleUpload (maxFileSize : Int) (storageOk : Bool) (r : UploadRequest) :
    HandlerResult :=
  if r.method ≠ "POST" then
    ⟨405, false, "", "Method not allowed. Use POST.", false⟩
  else if r.parseFormOk = false then
    ⟨400, false, "", "Failed to parse form: <err>", false⟩
  else if r.fileProvided = false then
    ⟨400, false, "", "No image file provided. Use 'image' as the form field name.", false⟩
  else if r.fileSize > maxFileSize then
    ⟨400, false, "", "File too large. Max size: <n> MB", false⟩
  else if isValidImageType r.filename = false then
    ⟨400, false, "", "Invalid file type. Allowed: jpg, jpeg, png, gif, webp, bmp, svg", false⟩
  else if storageOk = false then
    ⟨500, false, "", "Failed to upload image: <err>", true⟩
  else
    ⟨200, true, "Image uploaded successfully", "", true⟩

/-- The aspects of a request `HandleGenerateSignedUrl` branches on: the
method, whether the JSON body decoded, and the decoded `filename` and
`contentType` fields. -/
structure SignedUrlRequest where
  method : String
  bodyDecodeOk : Bool
  filename : String
  contentType : String

/-- `HandleGenerateSignedUrl`: reject non-POST methods, undecodable
bodies, an empty filename or content type, and invalid image types, in
that order, each without touching storage; otherwise call
`GenerateV4PutObjectSignedURL` and report its outcome. -/
def HandleGenerateSignedUrl (storageOk : Bool) (r : SignedUrlRequest) :
    HandlerResult :=
  if r.method ≠ "POST" then
    ⟨405, false, "", "Method not allowed. Use POST.", false⟩
  else if r.bodyDecodeOk = false then
    ⟨400, false, "", "Invalid request body", false⟩
  else if r.filename = "" ∨ r.contentType = "" then
    ⟨400, false, "", "Filename and ContentType are required", false⟩
  else if isValidImageType r.filename = false then
    ⟨400, false, "", "Invalid file type", false⟩
  else if storageOk = false then
    ⟨500, false, "", "Failed to generate signed URL: <err>", true⟩
  else
    ⟨200, true, "Signed URL generated successfully", "", true⟩

/-! ### Helper lemmas -/

/-- Both denial branches of `AuthMiddleware` produce the same outcome:
connection closed when hijacking works, a bare 404 otherwise. -/
theorem auth_denied_result (α : Type) (apiKey : String) (allowedIPs : List String)
    (hijackable : Bool) (next : Request → α) (r : Request)
    (hdeny : (headerGet r.headers "X-API-Key" = "" ∨
              headerGet r.headers "X-API-Key" ≠ apiKey) ∨
             (allowedIPs.length > 0 ∧ isIPAllowed (getClientIP r) allowedIPs = false)) :
    AuthMiddleware apiKey allowedIPs hijackable next r =
      (if hijackable then GateResult.closed else GateResult.response 404 "") := by
  unfold AuthMiddleware
  rcases hdeny with hkey | hip
  · rw [if_pos hkey]
  · by_cases hkey : headerGet r.headers "X-API-Key" = "" ∨
        headerGet r.headers "X-API-Key" ≠ apiKey
    · rw [if_pos hkey]
    · rw [if_neg hkey, if_pos hip]

/-- On a preflight, `CORSMiddleware` returns 204 with an empty body and
the headers it computed before the method test. -/
theorem cors_options_result (α : Type) (allowedOrigins : List String)
    (next : Request → α) (r : Request) (hopt : r.method = "OPTIONS") :
    CORSMiddleware allowedOrigins next r =
      ⟨(if isOriginAllowed (headerGet r.headers "Origin") allowedOrigins then
          [("Access-Control-Allow-Origin", headerGet r.headers "Origin")]
        else []) ++
        [("Access-Control-Allow-Methods", "POST, GET, OPTIONS"),
         ("Access-Control-Allow-Headers", "Content-Type, X-API-Key"),
         ("Access-Control-Max-Age", "3600")],
       GateResult.response 204 ""⟩ := by
  unfold CORSMiddleware
  rw [if_pos hopt]

/-- On a non-preflight, `CORSMiddleware` forwards to `next` with the same
headers. -/
theorem cors_non_options_result (α : Type) (allowedOrigins : List String)
    (next : Request → α) (r : Request) (hopt : r.method ≠ "OPTIONS") :
    CORSMiddleware allowedOrigins next r =
      ⟨(if isOriginAllowed (headerGet r.headers "Origin") allowedOrigins then
          [("Access-Control-Allow-Origin", headerGet r.headers "Origin")]
        else []) ++
        [("Access-Control-Allow-Methods", "POST, GET, OPTIONS"),
         ("Access-Control-Allow-Headers", "Content-Type, X-API-Key"),
         ("Access-Control-Max-Age", "3600")],
       GateResult.forwarded (next r)⟩ := by
  unfold CORSMiddleware
  rw [if_neg hopt]

/-! ### Claims -/

/-- C1: any request the API-key gate denies (`X-API-Key` missing, empty, or
not equal to the secret) or the IP-allowlist gate denies is answered either
by closing the connection without any HTTP status line or body (when the
transport supports hijacking) or by a bare 404 with an empty body (when it
does not) — never by a distinct unauthorized status or a descriptive error
body. -/
theorem auth_denial_is_stealth_or_404 (α : Type) (apiKey : String)
    (allowedIPs : List String) (hijackable : Bool) (next : Request → α) (r : Request)
    (hdeny : (headerGet r.headers "X-API-Key" = "" ∨
              headerGet r.headers "X-API-Key" ≠ apiKey) ∨
             (allowedIPs.length > 0 ∧ isIPAllowed (getClientIP r) allowedIPs = false)) :
    AuthMiddleware apiKey allowedIPs hijackable next r =
      (if hijackable then GateResult.closed else GateResult.response 404 "") :=
  auth_denied_result α apiKey allowedIPs hijackable next r hdeny

/-- Witness for C1: a request with a wrong key against secret `"secret"`
on a hijackable transport gets its connection closed. -/
theorem auth_denial_is_stealth_or_404_witness :
    AuthMiddleware "secret" [] true (fun _ => (0 : Nat))
      ⟨"POST", "/upload", "h", [("X-API-Key", "wrong")], "1.2.3.4:5"⟩ =
      GateResult.closed := by
  have h := auth_denial_is_stealth_or_404 Nat "secret" [] true (fun _ => 0)
    ⟨"POST", "/upload", "h", [("X-API-Key", "wrong")], "1.2.3.4:5"⟩
    (Or.inl (Or.inr (by decide)))
  simpa using h

/-- C2: a request denied by the API-key gate or the IP-allowlist gate, and
likewise any `OPTIONS` preflight, never reaches the next handler in the
chain: the gate's outcome does not depend on the downstream handler and is
never a `forwarded` value (for preflights it is the 204 response). -/
theorem denied_and_preflight_never_reach_handler :
    (∀ (α : Type) (apiKey : String) (allowedIPs : List String) (hijackable : Bool)
       (next next' : Request → α) (r : Request),
       ((headerGet r.headers "X-API-Key" = "" ∨
         headerGet r.headers "X-API-Key" ≠ apiKey) ∨
        (allowedIPs.length > 0 ∧ isIPAllowed (getClientIP r) allowedIPs = false)) →
       AuthMiddleware apiKey allowedIPs hijackable next r =
         AuthMiddleware apiKey allowedIPs hijackable next' r ∧
       (∀ a : α, AuthMiddleware apiKey allowedIPs hijackable next r ≠
         GateResult.forwarded a)) ∧
    (∀ (α : Type) (allowedOrigins : List String) (next next' : Request → α)
       (r : Request), r.method = "OPTIONS" →
       CORSMiddleware allowedOrigins next r = CORSMiddleware allowedOrigins next' r ∧
       (CORSMiddleware allowedOrigins next r).result = GateResult.response 204 "") := by
  constructor
  · intro α apiKey allowedIPs hijackable next next' r hdeny
    rw [auth_denied_result α apiKey allowedIPs hijackable next r hdeny,
        auth_denied_result α apiKey allowedIPs hijackable next' r hdeny]
    refine ⟨rfl, ?_⟩
    intro a
    cases hijackable <;> simp
  · intro α allowedOrigins next next' r hopt
    rw [cors_options_result α allowedOrigins next r hopt,
        cors_options_result α allowedOrigins next' r hopt]
    exact ⟨rfl, rfl⟩

/-- Witness for C2: with secret `"k"`, a keyless request's outcome is the
same for two different downstream handlers and is not a forward; a
preflight through CORS behaves likewise. -/
theorem denied_and_preflight_never_reach_handler_witness :
    AuthMiddleware "k" [] false (fun _ => (1 : Nat))
        ⟨"POST", "/upload", "h", [], "1.2.3.4:5"⟩ =
      AuthMiddleware "k" [] false (fun _ => (2 : Nat))
        ⟨"POST", "/upload", "h", [], "1.2.3.4:5"⟩ ∧
    (CORSMiddleware ["*"] (fun _ => (1 : Nat))
        ⟨"OPTIONS", "/upload", "h", [], "1.2.3.4:5"⟩).result =
      GateResult.response 204 "" := by
  constructor
  · exact (denied_and_preflight_never_reach_handler.1 Nat "k" [] false
      (fun _ => 1) (fun _ => 2) ⟨"POST", "/upload", "h", [], "1.2.3.4:5"⟩
      (Or.inl (Or.inl (by decide)))).1
  · exact (denied_and_preflight_never_reach_handler.2 Nat ["*"]
      (fun _ => 1) (fun _ => 1) ⟨"OPTIONS", "/upload", "h", [], "1.2.3.4:5"⟩
      (by decide)).2

/-- C3: the resolved client identity follows the fixed priority order,
first non-empty wins: `CF-Connecting-IP`, then `X-Real-IP`, then the first
comma-separated entry of `X-Forwarded-For` trimmed of whitespace, then the
transport peer address with the port stripped (the raw peer address when
stripping fails).  The function is total by construction. -/
theorem getClientIP_priority_order :
    (∀ r : Request, headerGet r.headers "CF-Connecting-IP" ≠ "" →
       getClientIP r = headerGet r.headers "CF-Connecting-IP") ∧
    (∀ r : Request, headerGet r.headers "CF-Connecting-IP" = "" →
       headerGet r.headers "X-Real-IP" ≠ "" →
       getClientIP r = headerGet r.headers "X-Real-IP") ∧
    (∀ r : Request, headerGet r.headers "CF-Connecting-IP" = "" →
       headerGet r.headers "X-Real-IP" = "" →
       headerGet r.headers "X-Forwarded-For" ≠ "" →
       getClientIP r = String.mk (trimSpaceList
         ((splitOnChar ',' (headerGet r.headers "X-Forwarded-For").data).headD []))) ∧
    (∀ r : Request, headerGet r.headers "CF-Connecting-IP" = "" →
       headerGet r.headers "X-Real-IP" = "" →
       headerGet r.headers "X-Forwarded-For" = "" →
       getClientIP r = (splitHostPort r.remoteAddr).getD r.remoteAddr) := by
  refine ⟨?_, ?_, ?_, ?_⟩
  · intro r hcf
    simp only [getClientIP]
    rw [if_pos hcf]
  · intro r hcf hreal
    simp only [getClientIP]
    rw [if_neg (not_not_intro hcf), if_pos hreal]
  · intro r hcf hreal hfwd
    simp only [getClientIP]
    rw [if_neg (not_not_intro hcf), if_neg (not_not_intro hreal), if_pos hfwd]
  · intro r hcf hreal hfwd
    simp only [getClientIP]
    rw [if_neg (not_not_intro hcf), if_neg (not_not_intro hreal),
        if_neg (not_not_intro hfwd)]
    cases splitHostPort r.remoteAddr <;> rfl

/-- Witness for C3: with `CF-Connecting-IP: 1.1.1.1` and
`X-Forwarded-For: 2.2.2.2`, the resolved identity is `1.1.1.1`. -/
theorem getClientIP_priority_order_witness :
    getClientIP ⟨"GET", "/upload", "h",
      [("CF-Connecting-IP", "1.1.1.1"), ("X-Forwarded-For", "2.2.2.2")],
      "9.9.9.9:1"⟩ = "1.1.1.1" :=
  (getClientIP_priority_order.1 ⟨"GET", "/upload", "h",
    [("CF-Connecting-IP", "1.1.1.1"), ("X-Forwarded-For", "2.2.2.2")],
    "9.9.9.9:1"⟩ (by decide)).trans (by decide)

/-- C4: the allowlist decision denies any client string that does not parse
as an IP, and otherwise allows exactly when some entry matches — a `/`
entry by CIDR membership (skipped when it fails to parse as CIDR, without
affecting other entries), any other entry by exact string equality.
`203.0.113.5` is allowed by `["203.0.113.0/24"]` and denied by
`["198.51.100.0/24"]`; IPv6 clients parse too: `::1` is allowed by the
exact entry `["::1"]` and `2001:db8::1` by the CIDR `["2001:db8::/32"]`. -/
theorem isIPAllowed_allowlist_semantics :
    isIPAllowed "203.0.113.5" ["203.0.113.0/24"] = true ∧
    isIPAllowed "203.0.113.5" ["198.51.100.0/24"] = false ∧
    isIPAllowed "::1" ["::1"] = true ∧
    isIPAllowed "2001:db8::1" ["2001:db8::/32"] = true ∧
    (∀ (clientIP : String) (allowedIPs : List String), parseIP clientIP = none →
       isIPAllowed clientIP allowedIPs = false) ∧
    (∀ (clientIP : String) (allowedIPs : List String) (parsed : List Nat),
       parseIP clientIP = some parsed →
       (isIPAllowed clientIP allowedIPs = true ↔
         ∃ entry ∈ allowedIPs, ipMatchesEntry clientIP parsed entry = true)) ∧
    (∀ (clientIP : String) (parsed : List Nat) (entry : String),
       entry.data.contains '/' = true → parseCIDR entry = none →
       ipMatchesEntry clientIP parsed entry = false) ∧
    (∀ (clientIP : String) (parsed : List Nat) (entry : String),
       entry.data.contains '/' = false →
       ipMatchesEntry clientIP parsed entry = (clientIP == entry)) := by
  refine ⟨by decide, by decide, by decide, by decide, ?_, ?_, ?_, ?_⟩
  · intro clientIP allowedIPs hnone
    unfold isIPAllowed
    rw [hnone]
  · intro clientIP allowedIPs parsed hsome
    unfold isIPAllowed
    rw [hsome]
    exact List.any_eq_true
  · intro clientIP parsed entry hslash hbad
    unfold ipMatchesEntry
    rw [if_pos hslash, hbad]
  · intro clientIP parsed entry hslash
    unfold ipMatchesEntry
    rw [hslash, if_neg Bool.false_ne_true]

/-- Witness for C4: `10.9.9.9` does not match allowlist `["10.0.0.1"]`
(no entry matches), and `not-an-ip` is denied because it fails to parse. -/
theorem isIPAllowed_allowlist_semantics_witness :
    isIPAllowed "not-an-ip" ["10.0.0.1"] = false ∧
    isIPAllowed "10.9.9.9" ["10.0.0.1"] = false := by
  constructor
  · exact isIPAllowed_allowlist_semantics.2.2.2.2.1 "not-an-ip" ["10.0.0.1"] (by decide)
  · have h := (isIPAllowed_allowlist_semantics.2.2.2.2.2.1 "10.9.9.9" ["10.0.0.1"]
      [0, 0, 0, 0, 0, 0, 0, 0, 0, 0, 255, 255, 10, 9, 9, 9] (by decide))
    by_contra hcon
    rcases h.mp (by simpa using hcon) with ⟨entry, hmem, hmatch⟩
    simp only [List.mem_singleton] at hmem
    subst hmem
    exact absurd hmatch (by decide)

/-- C5: every `OPTIONS` request, to any route, is answered immediately by
the CORS layer with 204 and an empty body, carrying the fixed
allow-methods, allow-headers and max-age headers, and the outcome is
independent of every downstream component. -/
theorem preflight_answered_with_204 :
    ∀ (α : Type) (allowedOrigins : List String) (next : Request → α) (r : Request),
      r.method = "OPTIONS" →
      (CORSMiddleware allowedOrigins next r).result = GateResult.response 204 "" ∧
      ("Access-Control-Allow-Methods", "POST, GET, OPTIONS")
        ∈ (CORSMiddleware allowedOrigins next r).headers ∧
      ("Access-Control-Allow-Headers", "Content-Type, X-API-Key")
        ∈ (CORSMiddleware allowedOrigins next r).headers ∧
      ("Access-Control-Max-Age", "3600")
        ∈ (CORSMiddleware allowedOrigins next r).headers ∧
      (∀ next' : Request → α,
        CORSMiddleware allowedOrigins next r = CORSMiddleware allowedOrigins next' r) := by
  intro α allowedOrigins next r hopt
  rw [cors_options_result α allowedOrigins next r hopt]
  refine ⟨rfl, by simp, by simp, by simp, ?_⟩
  intro next'
  rw [cors_options_result α allowedOrigins next' r hopt]

/-- Witness for C5: a concrete preflight to `/signedurl` yields 204, the
fixed headers, and an outcome independent of the downstream handler. -/
theorem preflight_answered_with_204_witness :
    (CORSMiddleware ["https://example.com"] (fun _ => (3 : Nat))
      ⟨"OPTIONS", "/signedurl", "h", [("Origin", "https://example.com")],
        "1.2.3.4:5"⟩).result = GateResult.response 204 "" ∧
    ("Access-Control-Max-Age", "3600") ∈
      (CORSMiddleware ["https://example.com"] (fun _ => (3 : Nat))
        ⟨"OPTIONS", "/signedurl", "h", [("Origin", "https://example.com")],
          "1.2.3.4:5"⟩).headers := by
  have h := preflight_answered_with_204 Nat ["https://example.com"] (fun _ => 3)
    ⟨"OPTIONS", "/signedurl", "h", [("Origin", "https://example.com")], "1.2.3.4:5"⟩
    (by decide)
  exact ⟨h.1, h.2.2.2.1⟩

/-- C6: on a non-`OPTIONS` request, the CORS layer reflects the request's
`Origin` value as `Access-Control-Allow-Origin` exactly when the origin
matches the allowed-origins policy (wildcard policy — no configured
origins or exactly `["*"]` — or exact string equality with a configured
origin), omits that header otherwise, and in both cases forwards the
request downstream. -/
theorem cors_reflects_allowed_origin :
    (∀ (α : Type) (allowedOrigins : List String) (next : Request → α) (r : Request),
       r.method ≠ "OPTIONS" →
       (CORSMiddleware allowedOrigins next r).result =
         GateResult.forwarded (next r) ∧
       (isOriginAllowed (headerGet r.headers "Origin") allowedOrigins = true →
         ("Access-Control-Allow-Origin", headerGet r.headers "Origin")
           ∈ (CORSMiddleware allowedOrigins next r).headers) ∧
       (isOriginAllowed (headerGet r.headers "Origin") allowedOrigins = false →
         ∀ v : String, ("Access-Control-Allow-Origin", v)
           ∉ (CORSMiddleware allowedOrigins next r).headers)) ∧
    (∀ (origin : String) (allowedOrigins : List String),
       isOriginAllowed origin allowedOrigins = true ↔
         (allowedOrigins = [] ∨ allowedOrigins = ["*"] ∨ origin ∈ allowedOrigins)) := by
  constructor
  · intro α allowedOrigins next r hopt
    rw [cors_non_options_result α allowedOrigins next r hopt]
    refine ⟨rfl, ?_, ?_⟩
    · intro hallow
      rw [if_pos hallow]
      simp
    · intro hdeny v
      rw [hdeny]
      simp
  · intro origin allowedOrigins
    match allowedOrigins with
    | [] => simp [isOriginAllowed]
    | [a] =>
      by_cases ha : a = "*"
      · subst ha
        simp [isOriginAllowed]
      · simp only [isOriginAllowed, List.length_singleton, List.headD_cons]
        rw [if_neg (by simp [ha])]
        simp [ha, List.any_eq_true, beq_iff_eq]
    | a :: b :: t =>
      simp only [isOriginAllowed, List.length_cons]
      rw [if_neg (by simp)]
      simp [List.any_eq_true, beq_iff_eq]

/-- Witness for C6: origin `https://example.com` is reflected against
allowed-origins `["https://example.com"]` and the header is omitted
against `["https://other.com"]`, while the request is still forwarded. -/
theorem cors_reflects_allowed_origin_witness :
    ("Access-Control-Allow-Origin", "https://example.com") ∈
      (CORSMiddleware ["https://example.com"] (fun _ => (0 : Nat))
        ⟨"POST", "/upload", "h", [("Origin", "https://example.com")],
          "1.2.3.4:5"⟩).headers ∧
    (∀ v : String, ("Access-Control-Allow-Origin", v) ∉
      (CORSMiddleware ["https://other.com"] (fun _ => (0 : Nat))
        ⟨"POST", "/upload", "h", [("Origin", "https://example.com")],
          "1.2.3.4:5"⟩).headers) ∧
    (CORSMiddleware ["https://other.com"] (fun _ => (0 : Nat))
      ⟨"POST", "/upload", "h", [("Origin", "https://example.com")],
        "1.2.3.4:5"⟩).result = GateResult.forwarded 0 := by
  have h1 := (cors_reflects_allowed_origin.1 Nat ["https://example.com"] (fun _ => 0)
    ⟨"POST", "/upload", "h", [("Origin", "https://example.com")], "1.2.3.4:5"⟩
    (by decide))
  have h2 := (cors_reflects_allowed_origin.1 Nat ["https://other.com"] (fun _ => 0)
    ⟨"POST", "/upload", "h", [("Origin", "https://example.com")], "1.2.3.4:5"⟩
    (by decide))
  refine ⟨?_, ?_, h2.1⟩
  · have := h1.2.1 (by decide)
    simpa using this
  · have := h2.2.2 (by decide)
    simpa using this

/-- A successful upload request carrying its client IP in
`CF-Connecting-IP`, as used to iterate the metrics middleware. -/
def uploadReq (host ip : String) : Request :=
  ⟨"POST", "/upload", host, [("CF-Connecting-IP", ip)], "127.0.0.1:1"⟩

/-- The client IP of `uploadReq` resolves to the `CF-Connecting-IP`
value whenever it is non-empty. -/
theorem getClientIP_uploadReq (host ip : String) (hip : ip ≠ "") :
    getClientIP (uploadReq host ip) = ip := by
  have hget : headerGet (uploadReq host ip).headers "CF-Connecting-IP" = ip := by
    simp [uploadReq, headerGet, List.find?]
  simp only [getClientIP]
  rw [hget, if_pos hip]

/-- Pointwise description of the counter vector after one non-`/metrics`
request. -/
theorem metricsMW_bump (next : Request → List Nat) (r : Request)
    (st : MetricsState) (hpath : r.path ≠ "/metrics") (l : Labels) :
    (MetricsMiddleware next r st).httpRequestsTotal l =
      if l = ⟨r.method, r.path, toString (recordedStatus (next r)), r.host, getClientIP r⟩
      then st.httpRequestsTotal l + 1 else st.httpRequestsTotal l := by
  unfold MetricsMiddleware
  rw [if_neg hpath]

/-- C7: for every request whose path is not `/metrics`, the middleware
increments, after the downstream layer completes, exactly the counter cell
keyed by (method, path, recorded status, host, resolved client IP) and
leaves every other cell untouched; requests to `/metrics` change nothing
(no counter, no histogram); consequently `n` successful `POST /upload`
requests from one host and client IP, starting from the zero state, put
the counter labeled `(POST, /upload, 200, host, ip)` at `n`. -/
theorem metrics_counts_requests :
    (∀ (next : Request → List Nat) (r : Request) (st : MetricsState),
       r.path ≠ "/metrics" →
       (MetricsMiddleware next r st).httpRequestsTotal
           ⟨r.method, r.path, toString (recordedStatus (next r)), r.host, getClientIP r⟩
         = st.httpRequestsTotal
           ⟨r.method, r.path, toString (recordedStatus (next r)), r.host, getClientIP r⟩ + 1 ∧
       (∀ l : Labels,
          l ≠ ⟨r.method, r.path, toString (recordedStatus (next r)), r.host, getClientIP r⟩ →
          (MetricsMiddleware next r st).httpRequestsTotal l = st.httpRequestsTotal l)) ∧
    (∀ (next : Request → List Nat) (r : Request) (st : MetricsState),
       r.path = "/metrics" → MetricsMiddleware next r st = st) ∧
    (∀ (host ip : String), ip ≠ "" → ∀ n : Nat,
       (iterateMW (fun _ => [200]) (uploadReq host ip) n).httpRequestsTotal
           ⟨"POST", "/upload", "200", host, ip⟩ = n) := by
  refine ⟨?_, ?_, ?_⟩
  · intro next r st hpath
    constructor
    · rw [metricsMW_bump next r st hpath, if_pos rfl]
    · intro l hl
      rw [metricsMW_bump next r st hpath, if_neg hl]
  · intro next r st hpath
    unfold MetricsMiddleware
    rw [if_pos hpath]
  · intro host ip hip n
    induction n with
    | zero => rfl
    | succ m ih =>
      show (MetricsMiddleware (fun _ => [200]) (uploadReq host ip)
        (iterateMW (fun _ => [200]) (uploadReq host ip) m)).httpRequestsTotal
          ⟨"POST", "/upload", "200", host, ip⟩ = m + 1
      rw [metricsMW_bump (fun _ => [200]) (uploadReq host ip) _ (by simp [uploadReq])]
      have hkey : (⟨"POST", "/upload", "200", host, ip⟩ : Labels) =
          ⟨(uploadReq host ip).method, (uploadReq host ip).path,
           toString (recordedStatus ((fun _ => [200]) (uploadReq host ip))),
           (uploadReq host ip).host, getClientIP (uploadReq host ip)⟩ := by
        rw [getClientIP_uploadReq host ip hip]
        simp only [uploadReq]
        congr 1
      rw [if_pos hkey, ih]

/-- Witness for C7: three successful `POST /upload` requests from host
`"h"` and client IP `"1.2.3.4"` leave that label's counter at 3, and a
request to `/metrics` leaves the zero state unchanged. -/
theorem metrics_counts_requests_witness :
    (iterateMW (fun _ => [200]) (uploadReq "h" "1.2.3.4") 3).httpRequestsTotal
        ⟨"POST", "/upload", "200", "h", "1.2.3.4"⟩ = 3 ∧
    MetricsMiddleware (fun _ => [200])
        ⟨"GET", "/metrics", "h", [], "1.2.3.4:5"⟩ initialMetrics = initialMetrics := by
  constructor
  · exact metrics_counts_requests.2.2 "h" "1.2.3.4" (by decide) 3
  · exact metrics_counts_requests.2.1 (fun _ => [200])
      ⟨"GET", "/metrics", "h", [], "1.2.3.4:5"⟩ initialMetrics rfl

/-- Counterexample to C8 as stated: after the `WriteHeader` call sequence
`[404, 500]`, the wrapper reports 500 for metrics labeling, not the first
code 404. -/
theorem responseWriter_first_status_cex :
    recordedStatus [404, 500] ≠ [404, 500].headD 200 ∧
    recordedStatus [404, 500] = 500 := by decide

/-- C8 (amended): the response wrapper records the LAST status code set by
the downstream layers — for every sequence of `WriteHeader` calls, the
code it reports for metrics labeling is the last in the sequence, or 200
if none was set. -/
theorem responseWriter_records_last_status :
    ∀ codes : List Nat, recordedStatus codes = codes.getLast?.getD 200 := by
  have key : ∀ (l : List Nat) (d : Nat), l.foldl writeHeader d = l.getLast?.getD d := by
    intro l
    induction l with
    | nil => intro d; rfl
    | cons c cs ih =>
      intro d
      rw [List.foldl_cons, ih (writeHeader d c)]
      cases cs with
      | nil => rfl
      | cons b bs =>
        rw [List.getLast?_cons_cons]
        have hsome : (b :: bs).getLast?.isSome := by
          rw [List.getLast?_isSome]
          exact List.cons_ne_nil b bs
        obtain ⟨y, hy⟩ := Option.isSome_iff_exists.mp hsome
        rw [hy]
        rfl
  intro codes
  exact key codes newResponseWriter

/-- Counterexample to C9 as stated: with an empty API key, `main` does not
register `/signedurl` (nor `/upload-dev`, `/signedurl-dev`) at all. -/
theorem no_key_routes_cex :
    ¬ ∃ rt ∈ registeredRoutes "", rt.path = "/signedurl" := by decide

/-- C9 (amended): when the configured secret is empty, `/upload` is the
only protected route registered, and it carries no API-key or IP-allowlist
check; `/upload-dev`, `/signedurl` and `/signedurl-dev` are not registered.
(`/health` and `/metrics` remain registered, also unwrapped.) -/
theorem no_key_registers_only_upload :
    registeredRoutes "" =
      [⟨"/health", false, "HandleHealth"⟩,
       ⟨"/metrics", false, "promhttp.Handler"⟩,
       ⟨"/upload", false, "HandleUpload(prod)"⟩] ∧
    (∀ rt ∈ registeredRoutes "", rt.authProtected = false) ∧
    ¬ ∃ rt ∈ registeredRoutes "",
      (rt.path = "/upload-dev" ∨ rt.path = "/signedurl" ∨ rt.path = "/signedurl-dev") := by
  refine ⟨by decide, by decide, by decide⟩

/-- Witness for C9 (amended): `/upload` is among the routes registered with
an empty key, and is not auth-wrapped. -/
theorem no_key_registers_only_upload_witness :
    (⟨"/upload", false, "HandleUpload(prod)"⟩ : Route) ∈ registeredRoutes "" ∧
    (⟨"/upload", false, "HandleUpload(prod)"⟩ : Route).authProtected = false := by
  constructor
  · rw [no_key_registers_only_upload.1]
    decide
  · exact no_key_registers_only_upload.2.1 ⟨"/upload", false, "HandleUpload(prod)"⟩
      (by rw [no_key_registers_only_upload.1]; decide)

/-- C10: any filename whose lowercased form does not end in one of
`.jpg .jpeg .png .gif .webp .bmp .svg` is rejected by both the upload
handler and the signed-URL handler with a 400 status, `success = false`
and a non-empty error message, and neither handler invokes the storage
collaborator for such a filename. -/
theorem invalid_image_type_rejected :
    ∀ filename : String,
      (∀ ext ∈ validExtensions,
        listEndsWith (filename.data.map Char.toLower) ext.data = false) →
      (∀ (maxFileSize : Int) (storageOk : Bool) (r : UploadRequest),
         r.filename = filename → r.method = "POST" → r.parseFormOk = true →
         r.fileProvided = true → ¬ r.fileSize > maxFileSize →
         HandleUpload maxFileSize storageOk r =
           ⟨400, false, "",
            "Invalid file type. Allowed: jpg, jpeg, png, gif, webp, bmp, svg", false⟩) ∧
      (∀ (storageOk : Bool) (r : SignedUrlRequest),
         r.filename = filename → r.method = "POST" → r.bodyDecodeOk = true →
         r.filename ≠ "" → r.contentType ≠ "" →
         HandleGenerateSignedUrl storageOk r =
           ⟨400, false, "", "Invalid file type", false⟩) ∧
      (∀ (maxFileSize : Int) (storageOk : Bool) (r : UploadRequest),
         r.filename = filename →
         (HandleUpload maxFileSize storageOk r).storageCalled = false) ∧
      (∀ (storageOk : Bool) (r : SignedUrlRequest),
         r.filename = filename →
         (HandleGenerateSignedUrl storageOk r).storageCalled = false) := by
  intro filename hbad
  have hinvalid : isValidImageType filename = false := by
    unfold isValidImageType
    rw [List.any_eq_false]
    intro ext hmem
    rw [hbad ext hmem]
    exact Bool.false_ne_true
  refine ⟨?_, ?_, ?_, ?_⟩
  · intro maxFileSize storageOk r hfn hm hpf hfp hsz
    unfold HandleUpload
    rw [if_neg (by rw [hm]; exact fun h => h rfl),
        if_neg (by rw [hpf]; decide),
        if_neg (by rw [hfp]; decide),
        if_neg hsz, if_pos (by rw [hfn]; exact hinvalid)]
  · intro storageOk r hfn hm hbd hne hct
    unfold HandleGenerateSignedUrl
    rw [if_neg (by rw [hm]; exact fun h => h rfl),
        if_neg (by rw [hbd]; decide),
        if_neg (by rw [not_or]; exact ⟨hne, hct⟩),
        if_pos (by rw [hfn]; exact hinvalid)]
  · intro maxFileSize storageOk r hfn
    unfold HandleUpload
    split
    · rfl
    split
    · rfl
    split
    · rfl
    split
    · rfl
    split
    · rfl
    all_goals
      have hinv2 : isValidImageType r.filename = false := by
        rw [hfn]; exact hinvalid
      exact absurd hinv2 (by assumption)
  · intro storageOk r hfn
    unfold HandleGenerateSignedUrl
    split
    · rfl
    split
    · rfl
    split
    · rfl
    split
    · rfl
    all_goals
      have hinv2 : isValidImageType r.filename = false := by
        rw [hfn]; exact hinvalid
      exact absurd hinv2 (by assumption)

/-- Witness for C10: `evil.exe` is rejected with 400 by both handlers,
with storage untouched. -/
theorem invalid_image_type_rejected_witness :
    HandleUpload 10485760 true ⟨"POST", true, true, 5, "evil.exe"⟩ =
      ⟨400, false, "",
       "Invalid file type. Allowed: jpg, jpeg, png, gif, webp, bmp, svg", false⟩ ∧
    HandleGenerateSignedUrl true ⟨"POST", true, "evil.exe", "image/png"⟩ =
      ⟨400, false, "", "Invalid file type", false⟩ := by
  constructor
  · exact (invalid_image_type_rejected "evil.exe" (by decide)).1 10485760 true
      ⟨"POST", true, true, 5, "evil.exe"⟩ rfl rfl rfl rfl (by decide)
  · exact (invalid_image_type_rejected "evil.exe" (by decide)).2.1 true
      ⟨"POST", true, "evil.exe", "image/png"⟩ rfl rfl rfl (by decide) (by decide)

end GCB
